import Mathlib

/-!
Verification of the claude-tools-mcp process-registry and file-mutation-guard
subsystem, shallowly embedded from the Go sources in `internal/tools`.

Modelling conventions:
* Go byte strings (output buffers) are modelled as `List Char`, one list
  element per byte; cursors (`LastStdoutReadAt`, …) are `Nat` offsets.
* Go maps (`BackgroundShells`, `ReadFiles`) are association lists with
  `List.lookup`; key uniqueness is irrelevant to the lookups proved here.
* External library calls (regexp compilation/matching, `os.Stat`,
  `filepath.Clean`, process spawn/kill outcomes, clock reads) are
  parameters of the embedded functions: the Go code only branches on
  their results, never inspects them further.
* `fmt.Errorf` results are plain `String` messages built exactly as the
  format strings build them; fallible Go functions return `Except`.
* Locking is not modelled: each Go function's lock-protected body is a
  single atomic state transition `State → (result, State)`.
-/

namespace ClaudeTools

/-- `BackgroundShell` from `bash.go`: one spawned background process.
`procPresent` models `Cmd.Process != nil`; `err` models the stored `Err error`. -/
structure BackgroundShell where
  id : String
  command : String
  stdout : List Char
  stderr : List Char
  startTime : Nat
  done : Bool
  err : Option String
  exitCode : Int
  lastStdoutReadAt : Nat
  lastStderrReadAt : Nat
  procPresent : Bool
deriving Repr, DecidableEq

/-- `State` from `state.go`: the shared registry and read-file table.
`readFiles` maps canonical paths to the observed modification time
(modelled as `Nat` clock ticks). -/
structure State where
  readFiles : List (String × Nat)
  backgroundShells : List (String × BackgroundShell)
  nextShellID : Nat
deriving Repr, DecidableEq

/-- `NewState()` from `state.go`. -/
def NewState : State :=
  { readFiles := [], backgroundShells := [], nextShellID := 1 }

/-- In-place mutation of the shell struct reached through the map pointer:
the Go code writes through `shell` obtained from `s.BackgroundShells[shellID]`,
which updates the entry stored in the map. -/
def updateShell (m : List (String × BackgroundShell)) (k : String)
    (v : BackgroundShell) : List (String × BackgroundShell) :=
  m.map (fun p => if p.1 = k then (k, v) else p)

/-- The pre-JSON result record of `executeBashOutput` (`bashOutputResult`
in `bash_output.go`); JSON marshalling is a formatting layer left out. -/
structure BashOutputResult where
  status : String
  exitCode : Int
  stdout : List Char
  stderr : List Char
  timestamp : String
deriving Repr, DecidableEq

/-- `filterOutput` from `bash_output.go`. `compile` abstracts
`regexp.Compile`: on success it yields the `MatchString` predicate of the
compiled pattern, on failure the compile error text. `strings.Split _ "\n"`
is `List.splitOn '\n'`; `strings.Join _ "\n"` is `List.intercalate ['\n']`;
`strings.HasSuffix _ "\n"` is `getLast? = some '\n'`. -/
def filterOutput (compile : String → Except String (List Char → Bool))
    (output : List Char) (pattern : String) : Except String (List Char) :=
  if pattern = "" then
    Except.ok output
  else
    match compile pattern with
    | Except.error e => Except.error ("Invalid filter regex: " ++ e)
    | Except.ok regex =>
      let hasTrailingNewline := output.getLast? = some '\n'
      let lines := output.splitOn '\n'
      let filtered := lines.filter regex
      let result := List.intercalate ['\n'] filtered
      let result := if hasTrailingNewline ∧ result ≠ [] then result ++ ['\n'] else result
      Except.ok result

/-- `absoluteMaxOutputSize` from `constraints.go`. -/
def absoluteMaxOutputSize : Nat := 25000 * 4

/-- The per-tool suggestion switch inside `checkOutputSize` (`constraints.go`). -/
def outputSizeSuggestion (toolName : String) : String :=
  if toolName = "read" then
    "Use the offset and limit parameters to read specific portions of the file, or use the Grep tool to search for specific content."
  else if toolName = "write" then
    "Consider breaking the file into smaller chunks."
  else if toolName = "edit" then
    "Consider editing smaller sections of the file."
  else if toolName = "grep" then
    "Consider using the head_limit parameter to restrict results, adding more specific patterns, or using glob/type filters to narrow the search."
  else if toolName = "glob" then
    "Consider using more specific glob patterns to narrow the search scope."
  else if toolName = "bash" then
    "Consider using background execution with BashOutput to stream results, or redirect output to a file and read specific portions."
  else
    "Consider breaking down the operation into smaller parts or using more specific parameters to limit output."

/-- `checkOutputSize` from `constraints.go` (the unused `ctx` parameter is
dropped); `some msg` models a non-nil error. -/
def checkOutputSize (output : List Char) (toolName : String) : Option String :=
  if output.length > absoluteMaxOutputSize then
    some ("Output (" ++ toString (output.length / 4) ++ " tokens) exceeds maximum allowed size ("
      ++ toString (absoluteMaxOutputSize / 4) ++ " tokens). " ++ outputSizeSuggestion toolName)
  else
    none

/-- `executeBashOutput` from `bash_output.go`. `ts` abstracts the formatted
`time.Now()`. Note the source order: the read cursors are advanced to the
buffer lengths BEFORE the filter is compiled/applied, so a filter error
returns with the cursors already advanced (the mutated state `s1`). -/
def executeBashOutput (compile : String → Except String (List Char → Bool))
    (ts : String) (s : State) (shellID filter : String) :
    Except String BashOutputResult × State :=
  if shellID = "" then
    (Except.error "bash_id is required.", s)
  else
    match s.backgroundShells.lookup shellID with
    | none => (Except.error ("Background shell with ID '" ++ shellID ++ "' not found."), s)
    | some shell =>
      let stdoutContent := shell.stdout
      let stderrContent := shell.stderr
      let newStdout := stdoutContent.drop shell.lastStdoutReadAt
      let newStderr := stderrContent.drop shell.lastStderrReadAt
      let shell1 := { shell with lastStdoutReadAt := stdoutContent.length,
                                 lastStderrReadAt := stderrContent.length }
      let s1 := { s with backgroundShells := updateShell s.backgroundShells shellID shell1 }
      let exitCode : Int := if shell.done then shell.exitCode else 0
      let statusStr : String :=
        if shell.done then (if shell.exitCode ≠ 0 then "failed" else "completed") else "running"
      let filteredPair : Except String (List Char × List Char) :=
        if filter = "" then
          Except.ok (newStdout, newStderr)
        else
          match filterOutput compile newStdout filter with
          | Except.error e => Except.error e
          | Except.ok filteredStdout =>
            match filterOutput compile newStderr filter with
            | Except.error e => Except.error e
            | Except.ok filteredStderr => Except.ok (filteredStdout, filteredStderr)
      match filteredPair with
      | Except.error e => (Except.error e, s1)
      | Except.ok (outStdout, outStderr) =>
        let _ := checkOutputSize outStdout "bash"
        let _ := checkOutputSize outStderr "bash"
        (Except.ok { status := statusStr, exitCode := exitCode,
                     stdout := outStdout, stderr := outStderr, timestamp := ts }, s1)

/-- A back-to-back sequence of `n` unfiltered `executeBashOutput` calls on one
shell (no writer activity in between), collecting the `stdout` field of each
successful result. -/
def pollStdoutN (compile : String → Except String (List Char → Bool))
    (ts : String) (shellID : String) : Nat → State → List (List Char) × State
  | 0, s => ([], s)
  | n + 1, s =>
    match executeBashOutput compile ts s shellID "" with
    | (Except.ok res, s1) =>
      let rest := pollStdoutN compile ts shellID n s1
      (res.stdout :: rest.1, rest.2)
    | (Except.error _, s1) => ([], s1)

/-- `executeBackground` from `bash.go`. `startOk`/`startErr` abstract the
outcome of `cmd.Start()`. On success, the id is allocated from `nextShellID`
(then incremented) and a fresh shell with empty buffers, zero cursors and an
open `Done` channel is inserted; the monitoring goroutine is a later,
separate transition and not part of this call. -/
def executeBackground (startOk : Bool) (startErr : String) (now : Nat)
    (s : State) (command : String) : Except String String × State :=
  if startOk = false then
    (Except.error ("Failed to start background command: " ++ startErr), s)
  else
    let shellID := "shell_" ++ toString s.nextShellID
    let shell : BackgroundShell :=
      { id := shellID, command := command, stdout := [], stderr := [],
        startTime := now, done := false, err := none, exitCode := 0,
        lastStdoutReadAt := 0, lastStderrReadAt := 0, procPresent := true }
    (Except.ok ("Command running in background with ID: " ++ shellID),
     { s with nextShellID := s.nextShellID + 1,
              backgroundShells := (shellID, shell) :: s.backgroundShells })

/-- `executeKillShell` from `kill_shell.go`. `killOk`/`killErr` abstract the
outcome of `Process.Kill()`; the grace-period `time.Sleep` has no effect on
registry state and is elided. `delete(s.BackgroundShells, shellID)` is the
filter removing the key. -/
def executeKillShell (killOk : Bool) (killErr : String)
    (s : State) (shellID : String) : Except String String × State :=
  if shellID = "" then
    (Except.error "shell_id is required.", s)
  else
    match s.backgroundShells.lookup shellID with
    | none => (Except.error ("Background shell with ID '" ++ shellID ++ "' not found."), s)
    | some shell =>
      if shell.done then
        (Except.error ("Shell " ++ shellID ++ " has already completed. Cannot kill a finished process."), s)
      else if shell.procPresent ∧ killOk = false then
        (Except.error ("Failed to kill shell " ++ shellID ++ ": " ++ killErr), s)
      else
        (Except.ok ("Successfully killed shell: " ++ shellID ++ " (" ++ shell.command ++ ")"),
         { s with backgroundShells := s.backgroundShells.filter (fun p => p.1 != shellID) })

/-- The error returned by `cmd.CombinedOutput()` in `executeForeground`:
either a `*exec.ExitError` (process ran and exited abnormally) or any other
error (e.g. the process could not be started). `msg` is `err.Error()`. -/
inductive ExecError where
  | exitError (exitCode : Int) (msg : String)
  | otherError (msg : String)
deriving Repr, DecidableEq

/-- The result of `cmd.CombinedOutput()`: captured combined output plus the
optional error. -/
structure ExecResult where
  output : List Char
  err : Option ExecError
deriving Repr, DecidableEq

/-- `err.Error()` of an `ExecError`. -/
def ExecError.message : ExecError → String
  | ExecError.exitError _ m => m
  | ExecError.otherError m => m

/-- `strings.Contains` on byte lists: `needle` occurs as a contiguous infix. -/
def hasSubstr (needle : List Char) : List Char → Bool
  | [] => needle.isEmpty
  | c :: rest => needle.isPrefixOf (c :: rest) || hasSubstr needle rest

/-- `strings.Contains(s, sub)`. -/
def goContains (s sub : String) : Bool :=
  hasSubstr sub.toList s.toList

/-- The normalized timeout message of `executeForeground` (`bash.go`),
produced identically for the context-deadline shape and for the
`exit code -1 + "signal: killed"` shape. -/
def timedOutMsg : String :=
  "Command timed out. Consider increasing the timeout parameter or running in background."

/-- The nonzero-exit message of `executeForeground` (`bash.go`). -/
def exitCodeMessage (exitCode : Int) (output : List Char) (command : String) : String :=
  "Command exited with code " ++ toString exitCode ++ ":\n" ++ String.mk output
    ++ "\n\nCommand: " ++ command

/-- The start-failure message of `executeForeground` (`bash.go`). -/
def startFailureMessage (msg command : String) : String :=
  "Failed to execute command: " ++ msg ++ "\n\nCommand: " ++ command

/-- `executeForeground` from `bash.go`, branching on the abstracted
`cmd.CombinedOutput()` result exactly as the source does: the
"context deadline exceeded" substring check first, then the
`*exec.ExitError` type switch with the `-1`/"signal: killed"
normalization, then the generic start-failure wrap. -/
def executeForeground (res : ExecResult) (command : String) : Except String String :=
  match res.err with
  | some e =>
    if goContains e.message "context deadline exceeded" = true then
      Except.error timedOutMsg
    else
      match e with
      | ExecError.exitError exitCode msg =>
        if exitCode = -1 ∧ goContains msg "signal: killed" = true then
          Except.error timedOutMsg
        else
          Except.error (exitCodeMessage exitCode res.output command)
      | ExecError.otherError msg =>
        Except.error (startFailureMessage msg command)
  | none =>
    let result := String.mk res.output
    match checkOutputSize res.output "bash" with
    | some sizeErr => Except.error sizeErr
    | none => Except.ok result

/-- `resolvePath` from `common.go`. `clean` abstracts `filepath.Clean`;
`filepath.IsAbs` is the leading-slash test, expressed on the byte list. -/
def resolvePath (clean : String → String) (filePath : String) : Except String String :=
  if filePath.data.head? ≠ some '/' then
    Except.error "file path must be absolute, not relative"
  else
    Except.ok (clean filePath)

/-- `validateFileForEdit` from `edit.go`. `disk` abstracts `os.Stat` on the
resolved path: `some mt` is a successful stat with modification time `mt`,
`none` a stat error. `some msg` models a non-nil validation error. -/
def validateFileForEdit (disk : String → Option Nat) (s : State)
    (resolved : String) : Option String :=
  match s.readFiles.lookup resolved with
  | none => some "file has not been read yet - please read the file before editing"
  | some readTime =>
    match disk resolved with
    | some mt =>
      if readTime < mt then
        some "file has been modified since it was last read - please read the file again before editing"
      else
        none
    | none => none

/-- `executeWrite` from `write.go`. `clean` abstracts `filepath.Clean`,
`disk` the pre-write `os.Stat`, and `newModTime` the modification time the
post-write `os.Stat` observes (the model lets `os.MkdirAll`/`os.WriteFile`
and the re-stat succeed). `ModTime().After(readTime)` is the strict
comparison `readTime < mt`. -/
def executeWrite (clean : String → String) (disk : String → Option Nat)
    (newModTime : Nat) (s : State) (filePath content : String) :
    Except String String × State :=
  match resolvePath clean filePath with
  | Except.error e => (Except.error e, s)
  | Except.ok resolved =>
    let guard : Option String :=
      match disk resolved with
      | some mt =>
        match s.readFiles.lookup resolved with
        | none => some "file exists, you must read it first before writing"
        | some readTime =>
          if readTime < mt then
            some "file has been modified since last read, please read again before writing"
          else
            none
      | none => none
    match guard with
    | some e => (Except.error e, s)
    | none =>
      let wasRead := (s.readFiles.lookup resolved).isSome
      let message :=
        if wasRead then "File updated successfully at: " ++ resolved
        else "File created successfully at: " ++ resolved
      (Except.ok message,
       { s with readFiles := (resolved, newModTime) :: s.readFiles.filter (fun p => p.1 != resolved) })

/-! Concrete instances used by the witness theorems. -/

/-- A concrete running shell with two bytes of pending stdout. -/
def wShell : BackgroundShell :=
  { id := "shell_1", command := "echo hi", stdout := ['h', 'i'], stderr := ['e'],
    startTime := 0, done := false, err := none, exitCode := 0,
    lastStdoutReadAt := 0, lastStderrReadAt := 0, procPresent := true }

/-- A concrete registry state holding `wShell`. -/
def wState : State :=
  { readFiles := [("/tmp/a.txt", 5)], backgroundShells := [("shell_1", wShell)],
    nextShellID := 2 }

/-- A concrete shell whose completion signal has fired with exit code 0. -/
def wDoneShell : BackgroundShell :=
  { wShell with done := true }

/-- A concrete registry state holding the completed `wDoneShell`. -/
def wDoneState : State :=
  { wState with backgroundShells := [("shell_1", wDoneShell)] }

/-- A concrete shell whose pending stdout exceeds `absoluteMaxOutputSize`. -/
def bigShell : BackgroundShell :=
  { wShell with stdout := List.replicate 100001 'a' }

/-- A concrete registry state holding `bigShell`. -/
def bigState : State :=
  { wState with backgroundShells := [("shell_1", bigShell)] }

/-- A concrete regexp-compile stand-in for calls that supply no filter. -/
def wCompile : String → Except String (List Char → Bool) :=
  fun _ => Except.error "unused"

/-- The size-cap error message produced for 100001 bytes of bash output. -/
def bigSizeMsg : String :=
  "Output (25000 tokens) exceeds maximum allowed size (25000 tokens). Consider using background execution with BashOutput to stream results, or redirect output to a file and read specific portions."

/-! Helper lemmas shared by several claims. -/

/-- Updating the entry reached by a successful lookup makes the lookup
return the new value. -/
theorem lookup_updateShell (m : List (String × BackgroundShell)) (k : String)
    (v sh : BackgroundShell) :
    m.lookup k = some sh → (updateShell m k v).lookup k = some v := by
  induction m with
  | nil => intro h; simp [List.lookup] at h
  | cons p t ih =>
    intro h
    obtain ⟨k1, v1⟩ := p
    simp only [updateShell, List.map_cons] at ih ⊢
    by_cases hk : k1 = k
    · rw [if_pos hk]
      simp [List.lookup]
    · rw [if_neg hk]
      have hb : (k == k1) = false := beq_eq_false_iff_ne.mpr (fun hq => hk hq.symm)
      simp only [List.lookup, hb] at h ⊢
      exact ih h

/-- Characterization of an unfiltered `executeBashOutput` call on a known
shell: it returns exactly the bytes from the pre-call cursor to the buffer
end and stores the cursors advanced to the buffer lengths. -/
theorem executeBashOutput_nofilter
    (compile : String → Except String (List Char → Bool))
    (ts : String) (s : State) (shellID : String) (shell : BackgroundShell)
    (hid : shellID ≠ "") (hl : s.backgroundShells.lookup shellID = some shell) :
    executeBashOutput compile ts s shellID "" =
      (Except.ok
        { status := if shell.done then (if shell.exitCode ≠ 0 then "failed" else "completed") else "running",
          exitCode := if shell.done then shell.exitCode else 0,
          stdout := shell.stdout.drop shell.lastStdoutReadAt,
          stderr := shell.stderr.drop shell.lastStderrReadAt,
          timestamp := ts },
       { s with backgroundShells :=
                  updateShell s.backgroundShells shellID
                    ({ shell with lastStdoutReadAt := shell.stdout.length,
                                  lastStderrReadAt := shell.stderr.length }) }) := by
  simp [executeBashOutput, hid, hl]

/-- Once the stdout cursor sits at the buffer end, any further run of
unfiltered polls (with no writer activity) delivers no stdout bytes. -/
theorem pollStdoutN_drained
    (compile : String → Except String (List Char → Bool)) (ts shellID : String) :
    ∀ (n : Nat) (s : State) (shell : BackgroundShell),
      shellID ≠ "" → s.backgroundShells.lookup shellID = some shell →
      shell.lastStdoutReadAt = shell.stdout.length →
      ((pollStdoutN compile ts shellID n s).1).flatten = [] := by
  intro n
  induction n with
  | zero => intro s shell _ _ _; simp [pollStdoutN]
  | succ n ih =>
    intro s shell hid hl hcur
    simp only [pollStdoutN, executeBashOutput_nofilter compile ts s shellID shell hid hl]
    rw [hcur, List.drop_length, List.flatten_cons, List.nil_append]
    exact ih _ _ hid (lookup_updateShell _ _ _ _ hl) rfl

/-- C1: for every sequence of unfiltered `executeBashOutput` calls on one
background execution with no writer activity between them, each call returns
exactly the bytes between the pre-call stdout cursor and the buffer length
and then sets the cursor to that length, and — starting from the freshly
created cursor 0 — the concatenation of the returned `newStdout` values over
any such sequence of at least one call equals the full accumulated stdout,
with no byte repeated or skipped. -/
theorem pollOutput_exact_once_delivery
    (compile : String → Except String (List Char → Bool)) (ts : String)
    (s : State) (shellID : String) (shell : BackgroundShell)
    (hid : shellID ≠ "")
    (hl : s.backgroundShells.lookup shellID = some shell) :
    ((executeBashOutput compile ts s shellID "").1 =
        Except.ok
          { status := if shell.done then (if shell.exitCode ≠ 0 then "failed" else "completed") else "running",
            exitCode := if shell.done then shell.exitCode else 0,
            stdout := shell.stdout.drop shell.lastStdoutReadAt,
            stderr := shell.stderr.drop shell.lastStderrReadAt,
            timestamp := ts }
      ∧ ((executeBashOutput compile ts s shellID "").2).backgroundShells.lookup shellID =
          some ({ shell with lastStdoutReadAt := shell.stdout.length,
                             lastStderrReadAt := shell.stderr.length }))
    ∧ (shell.lastStdoutReadAt = 0 → ∀ n, 1 ≤ n →
        ((pollStdoutN compile ts shellID n s).1).flatten = shell.stdout) := by
  have hstep := executeBashOutput_nofilter compile ts s shellID shell hid hl
  refine ⟨⟨by rw [hstep], by rw [hstep]; exact lookup_updateShell _ _ _ _ hl⟩, ?_⟩
  intro h0 n hn
  obtain ⟨m, rfl⟩ : ∃ m, n = m + 1 := ⟨n - 1, (Nat.succ_pred_eq_of_pos hn).symm⟩
  simp only [pollStdoutN, hstep]
  rw [h0, List.drop_zero, List.flatten_cons,
    pollStdoutN_drained compile ts shellID m _ _ hid (lookup_updateShell _ _ _ _ hl) rfl,
    List.append_nil]

/-- Witness for C1: a two-poll run on the concrete shell `wShell` delivers
its full stdout exactly once. -/
theorem pollOutput_exact_once_delivery_witness :
    (("shell_1" : String) ≠ "" ∧ wState.backgroundShells.lookup "shell_1" = some wShell
      ∧ wShell.lastStdoutReadAt = 0 ∧ 1 ≤ 2)
    ∧ ((pollStdoutN wCompile "t" "shell_1" 2 wState).1).flatten = wShell.stdout :=
  ⟨⟨by decide, by rfl, by rfl, by decide⟩,
   (pollOutput_exact_once_delivery wCompile "t" wState "shell_1" wShell
      (by decide) (by rfl)).2 (by rfl) 2 (by decide)⟩

/-- C2 as stated is false: on the concrete state `wState`, a poll whose
filter pattern fails to compile returns an error, yet the stdout read cursor
of the execution has been advanced from 0 to 2 (and the stderr cursor from 0
to 1) — the cursors are not left unchanged, so a retry does not redeliver
the lost bytes. -/
theorem pollOutput_invalid_filter_cursor_cex :
    (executeBashOutput (fun _ => Except.error "missing closing ]") "t" wState "shell_1" "[").1 =
      Except.error "Invalid filter regex: missing closing ]"
    ∧ ((executeBashOutput (fun _ => Except.error "missing closing ]") "t" wState "shell_1" "[").2).backgroundShells.lookup "shell_1" =
        some ({ wShell with lastStdoutReadAt := 2, lastStderrReadAt := 1 })
    ∧ wShell.lastStdoutReadAt = 0 :=
  ⟨by rfl, by rfl, by rfl⟩

/-- C2 amended: a poll whose filter pattern fails to compile returns the
compile error, but the execution's read cursors have already been advanced
to the buffer lengths observed by the failed call, so the bytes that were
pending at call time are consumed and an immediate retry does not
redeliver them. -/
theorem pollOutput_invalid_filter_advances_cursors
    (compile : String → Except String (List Char → Bool))
    (ts : String) (s : State) (shellID pattern : String)
    (shell : BackgroundShell) (e : String)
    (hid : shellID ≠ "")
    (hl : s.backgroundShells.lookup shellID = some shell)
    (hp : pattern ≠ "")
    (hc : compile pattern = Except.error e) :
    (executeBashOutput compile ts s shellID pattern).1 =
      Except.error ("Invalid filter regex: " ++ e)
    ∧ ((executeBashOutput compile ts s shellID pattern).2).backgroundShells.lookup shellID =
        some ({ shell with lastStdoutReadAt := shell.stdout.length,
                           lastStderrReadAt := shell.stderr.length }) := by
  have heq : executeBashOutput compile ts s shellID pattern =
      (Except.error ("Invalid filter regex: " ++ e),
       { s with backgroundShells :=
                  updateShell s.backgroundShells shellID
                    ({ shell with lastStdoutReadAt := shell.stdout.length,
                                  lastStderrReadAt := shell.stderr.length }) }) := by
    simp [executeBashOutput, filterOutput, hid, hl, hp, hc]
  exact ⟨by rw [heq], by rw [heq]; exact lookup_updateShell _ _ _ _ hl⟩

/-- Witness for the amended C2 on the concrete state `wState`. -/
theorem pollOutput_invalid_filter_advances_cursors_witness :
    (("shell_1" : String) ≠ ""
      ∧ wState.backgroundShells.lookup "shell_1" = some wShell
      ∧ ("[" : String) ≠ "")
    ∧ ((executeBashOutput (fun _ => Except.error "bad") "t" wState "shell_1" "[").1 =
        Except.error ("Invalid filter regex: " ++ "bad")
      ∧ ((executeBashOutput (fun _ => Except.error "bad") "t" wState "shell_1" "[").2).backgroundShells.lookup "shell_1" =
          some ({ wShell with lastStdoutReadAt := wShell.stdout.length,
                              lastStderrReadAt := wShell.stderr.length })) :=
  ⟨⟨by decide, by rfl, by decide⟩,
   pollOutput_invalid_filter_advances_cursors (fun _ => Except.error "bad") "t" wState
     "shell_1" "[" wShell "bad" (by decide) (by rfl) (by decide) (by rfl)⟩

/-- C3: with a compilable filter pattern, a line of the newly delivered
slice is kept iff the full line matches the compiled pattern predicate, and
a trailing newline of the pre-filter slice is present in the filtered
output iff the filtered result is non-empty. -/
theorem filterOutput_line_semantics
    (compile : String → Except String (List Char → Bool))
    (output : List Char) (pattern : String) (regex : List Char → Bool)
    (hp : pattern ≠ "") (hc : compile pattern = Except.ok regex) :
    filterOutput compile output pattern =
      Except.ok
        (if output.getLast? = some '\n' ∧ List.intercalate ['\n'] ((output.splitOn '\n').filter regex) ≠ []
         then List.intercalate ['\n'] ((output.splitOn '\n').filter regex) ++ ['\n']
         else List.intercalate ['\n'] ((output.splitOn '\n').filter regex))
    ∧ (∀ line ∈ output.splitOn '\n',
        (line ∈ (output.splitOn '\n').filter regex ↔ regex line = true))
    ∧ (∀ res, filterOutput compile output pattern = Except.ok res →
        output.getLast? = some '\n' → (res.getLast? = some '\n' ↔ res ≠ [])) := by
  have heq : filterOutput compile output pattern =
      Except.ok
        (if output.getLast? = some '\n' ∧ List.intercalate ['\n'] ((output.splitOn '\n').filter regex) ≠ []
         then List.intercalate ['\n'] ((output.splitOn '\n').filter regex) ++ ['\n']
         else List.intercalate ['\n'] ((output.splitOn '\n').filter regex)) := by
    simp [filterOutput, hp, hc]
  refine ⟨heq, ?_, ?_⟩
  · intro line hline
    simp [List.mem_filter, hline]
  · intro res hres htrail
    rw [heq] at hres
    simp only [Except.ok.injEq] at hres
    subst hres
    by_cases hj : List.intercalate ['\n'] ((output.splitOn '\n').filter regex) = []
    · rw [if_neg (fun hC => hC.2 hj), hj]
      simp
    · rw [if_pos ⟨htrail, hj⟩]
      simp [List.getLast?_concat]

/-- Witness for C3 on the slice "a\n" with the nonempty-line predicate. -/
theorem filterOutput_line_semantics_witness :
    (("." : String) ≠ ""
      ∧ (fun _ : String => Except.ok (ε := String) (fun l : List Char => !l.isEmpty)) "." =
          Except.ok (fun l : List Char => !l.isEmpty))
    ∧ (filterOutput (fun _ => Except.ok (fun l : List Char => !l.isEmpty)) ['a', '\n'] "." =
        Except.ok
          (if (['a', '\n'] : List Char).getLast? = some '\n'
               ∧ List.intercalate ['\n'] (((['a', '\n'] : List Char).splitOn '\n').filter (fun l : List Char => !l.isEmpty)) ≠ []
           then List.intercalate ['\n'] (((['a', '\n'] : List Char).splitOn '\n').filter (fun l : List Char => !l.isEmpty)) ++ ['\n']
           else List.intercalate ['\n'] (((['a', '\n'] : List Char).splitOn '\n').filter (fun l : List Char => !l.isEmpty)))
      ∧ (∀ line ∈ (['a', '\n'] : List Char).splitOn '\n',
          (line ∈ ((['a', '\n'] : List Char).splitOn '\n').filter (fun l : List Char => !l.isEmpty)
            ↔ (fun l : List Char => !l.isEmpty) line = true))
      ∧ (∀ res, filterOutput (fun _ => Except.ok (fun l : List Char => !l.isEmpty)) ['a', '\n'] "." = Except.ok res →
          (['a', '\n'] : List Char).getLast? = some '\n' →
          (res.getLast? = some '\n' ↔ res ≠ []))) :=
  ⟨⟨by decide, by rfl⟩,
   filterOutput_line_semantics (fun _ => Except.ok (fun l : List Char => !l.isEmpty))
     ['a', '\n'] "." (fun l : List Char => !l.isEmpty) (by decide) (by rfl)⟩

/-- C4 as stated is false: on the slice "a\n", a compiled pattern matching
every line (including the empty fragment that follows the trailing newline
after splitting) does not return the slice unchanged — rejoining restores
the trailing newline on top of the kept empty fragment, appending a second
newline. -/
theorem filterOutput_allmatch_not_identity_cex :
    (∀ line : List Char, (fun _ : List Char => true) line = true)
    ∧ filterOutput (fun _ => Except.ok (fun _ => true)) ['a', '\n'] ".*" =
        Except.ok ['a', '\n', '\n']
    ∧ Except.ok (ε := String) ['a', '\n', '\n'] ≠ Except.ok ['a', '\n'] :=
  ⟨fun _ => rfl, by rfl, fun h => absurd (Except.ok.inj h) (by decide)⟩

/-- C4 amended: filtering with a compilable pattern whose predicate holds on
every split line returns the output unchanged when the output has no
trailing newline, and the output with one extra newline appended when it
has one; filtering with a pattern whose predicate holds on no line returns
the empty string. -/
theorem filterOutput_allmatch_nomatch
    (compile : String → Except String (List Char → Bool))
    (output : List Char) (pattern : String) (regex : List Char → Bool)
    (hp : pattern ≠ "") (hc : compile pattern = Except.ok regex) :
    ((∀ line ∈ output.splitOn '\n', regex line = true) →
      filterOutput compile output pattern =
        Except.ok (if output.getLast? = some '\n' then output ++ ['\n'] else output))
    ∧ ((∀ line ∈ output.splitOn '\n', regex line = false) →
      filterOutput compile output pattern = Except.ok []) := by
  constructor
  · intro hall
    have hfil : (output.splitOn '\n').filter regex = output.splitOn '\n' :=
      List.filter_eq_self.mpr hall
    have hj : List.intercalate ['\n'] ((output.splitOn '\n').filter regex) = output := by
      rw [hfil]; exact List.intercalate_splitOn output '\n'
    simp only [filterOutput, if_neg hp, hc, hj]
    by_cases htn : output.getLast? = some '\n'
    · have hne : output ≠ [] := by
        intro h; rw [h] at htn; simp at htn
      rw [if_pos ⟨htn, hne⟩, if_pos htn]
    · rw [if_neg (fun hC => htn hC.1), if_neg htn]
  · intro hnone
    have hfil : (output.splitOn '\n').filter regex = [] :=
      List.filter_eq_nil_iff.mpr (fun a ha => by simp [hnone a ha])
    have hnil : List.intercalate ['\n'] ([] : List (List Char)) = [] := rfl
    simp [filterOutput, if_neg hp, hc, hfil, hnil]

/-- Witness for the amended C4: the all-match half on "ab" and the no-match
half on "a\n". -/
theorem filterOutput_allmatch_nomatch_witness :
    ((".*" : String) ≠ "" ∧ ("zzz" : String) ≠ "")
    ∧ filterOutput (fun _ => Except.ok (fun _ => true)) ['a', 'b'] ".*" =
        Except.ok (if (['a', 'b'] : List Char).getLast? = some '\n' then ['a', 'b'] ++ ['\n'] else ['a', 'b'])
    ∧ filterOutput (fun _ => Except.ok (fun _ => false)) ['a', '\n'] "zzz" = Except.ok [] :=
  ⟨⟨by decide, by decide⟩,
   (filterOutput_allmatch_nomatch (fun _ => Except.ok (fun _ => true)) ['a', 'b'] ".*"
      (fun _ => true) (by decide) (by rfl)).1 (fun line _ => rfl),
   (filterOutput_allmatch_nomatch (fun _ => Except.ok (fun _ => false)) ['a', '\n'] "zzz"
      (fun _ => false) (by decide) (by rfl)).2 (fun line _ => rfl)⟩

/-- C5: the read-before-mutate guard. For an existing file never recorded as
read, write is refused with the not-read error (and edit validation fails
likewise); after a read recorded time T1, mutation is refused with the
modified-since-read error exactly when the on-disk modification time is
strictly after T1 and permitted at or before T1; and a write to a path with
no file on disk is always permitted, whatever the table holds. -/
theorem fileMutationGuard_semantics
    (clean : String → String) (disk : String → Option Nat) (newModTime : Nat)
    (s : State) (filePath content resolved : String) (mt T1 : Nat)
    (habs : filePath.data.head? = some '/')
    (hres : clean filePath = resolved) :
    ((disk resolved = some mt → s.readFiles.lookup resolved = none →
        executeWrite clean disk newModTime s filePath content =
          (Except.error "file exists, you must read it first before writing", s))
    ∧ (s.readFiles.lookup resolved = none →
        validateFileForEdit disk s resolved =
          some "file has not been read yet - please read the file before editing"))
    ∧ (disk resolved = some mt → s.readFiles.lookup resolved = some T1 →
        ((T1 < mt →
            executeWrite clean disk newModTime s filePath content =
              (Except.error "file has been modified since last read, please read again before writing", s)
            ∧ validateFileForEdit disk s resolved =
                some "file has been modified since it was last read - please read the file again before editing")
        ∧ (mt ≤ T1 →
            (∃ m s1, executeWrite clean disk newModTime s filePath content = (Except.ok m, s1))
            ∧ validateFileForEdit disk s resolved = none)))
    ∧ (disk resolved = none →
        ∃ m s1, executeWrite clean disk newModTime s filePath content = (Except.ok m, s1)) := by
  refine ⟨⟨?_, ?_⟩, ?_, ?_⟩
  · intro hd hl
    simp [executeWrite, resolvePath, habs, hres, hd, hl]
  · intro hl
    simp [validateFileForEdit, hl]
  · intro hd hl
    constructor
    · intro hlt
      constructor
      · simp [executeWrite, resolvePath, habs, hres, hd, hl, hlt]
      · simp [validateFileForEdit, hl, hd, hlt]
    · intro hle
      have hnl : ¬ T1 < mt := not_lt.mpr hle
      constructor
      · exact ⟨_, _, by simp [executeWrite, resolvePath, habs, hres, hd, hl, hnl]; exact ⟨rfl, rfl⟩⟩
      · simp [validateFileForEdit, hl, hd, hnl]
  · intro hd
    exact ⟨_, _, by simp [executeWrite, resolvePath, habs, hres, hd]; exact ⟨rfl, rfl⟩⟩

/-- Witness for C5 at a concrete table, disk and path (read at time 5, disk
modification time 3, so mutation is permitted). -/
theorem fileMutationGuard_semantics_witness :
    (("/tmp/a.txt" : String).data.head? = some '/'
      ∧ (fun p : String => p) "/tmp/a.txt" = "/tmp/a.txt")
    ∧ ((((fun _ : String => some 3) "/tmp/a.txt" = some 3 → wState.readFiles.lookup "/tmp/a.txt" = none →
          executeWrite (fun p => p) (fun _ => some 3) 9 wState "/tmp/a.txt" "x" =
            (Except.error "file exists, you must read it first before writing", wState))
      ∧ (wState.readFiles.lookup "/tmp/a.txt" = none →
          validateFileForEdit (fun _ => some 3) wState "/tmp/a.txt" =
            some "file has not been read yet - please read the file before editing"))
    ∧ ((fun _ : String => some 3) "/tmp/a.txt" = some 3 → wState.readFiles.lookup "/tmp/a.txt" = some 5 →
        ((5 < 3 →
            executeWrite (fun p => p) (fun _ => some 3) 9 wState "/tmp/a.txt" "x" =
              (Except.error "file has been modified since last read, please read again before writing", wState)
            ∧ validateFileForEdit (fun _ => some 3) wState "/tmp/a.txt" =
                some "file has been modified since it was last read - please read the file again before editing")
        ∧ (3 ≤ 5 →
            (∃ m s1, executeWrite (fun p => p) (fun _ => some 3) 9 wState "/tmp/a.txt" "x" = (Except.ok m, s1))
            ∧ validateFileForEdit (fun _ => some 3) wState "/tmp/a.txt" = none)))
    ∧ ((fun _ : String => some 3) "/tmp/a.txt" = none →
        ∃ m s1, executeWrite (fun p => p) (fun _ => some 3) 9 wState "/tmp/a.txt" "x" = (Except.ok m, s1))) :=
  ⟨⟨by decide, by rfl⟩,
   fileMutationGuard_semantics (fun p => p) (fun _ => some 3) 9 wState
     "/tmp/a.txt" "x" "/tmp/a.txt" 3 5 (by decide) (by rfl)⟩

/-- C6: when starting the background process fails, `executeBackground`
surfaces the start error and leaves the state untouched — no registry entry
is created and the id counter is not advanced. -/
theorem executeBackground_start_failure (startErr : String) (now : Nat)
    (s : State) (command : String) :
    executeBackground false startErr now s command =
      (Except.error ("Failed to start background command: " ++ startErr), s)
    ∧ (executeBackground false startErr now s command).2.backgroundShells = s.backgroundShells
    ∧ (executeBackground false startErr now s command).2.nextShellID = s.nextShellID := by
  refine ⟨?_, ?_, ?_⟩ <;> simp [executeBackground]

/-- C7: terminating an execution whose completion signal has already fired
returns the already-completed error and leaves the registry — and the
entry — exactly as they were. -/
theorem terminate_already_completed
    (killOk : Bool) (killErr : String) (s : State) (shellID : String)
    (shell : BackgroundShell)
    (hid : shellID ≠ "")
    (hl : s.backgroundShells.lookup shellID = some shell)
    (hdone : shell.done = true) :
    executeKillShell killOk killErr s shellID =
      (Except.error ("Shell " ++ shellID ++ " has already completed. Cannot kill a finished process."), s)
    ∧ ((executeKillShell killOk killErr s shellID).2).backgroundShells.lookup shellID = some shell := by
  have heq : executeKillShell killOk killErr s shellID =
      (Except.error ("Shell " ++ shellID ++ " has already completed. Cannot kill a finished process."), s) := by
    simp [executeKillShell, hid, hl, hdone]
  exact ⟨heq, by rw [heq]; exact hl⟩

/-- Witness for C7 on the completed concrete shell `wDoneShell`. -/
theorem terminate_already_completed_witness :
    (("shell_1" : String) ≠ ""
      ∧ wDoneState.backgroundShells.lookup "shell_1" = some wDoneShell
      ∧ wDoneShell.done = true)
    ∧ (executeKillShell true "" wDoneState "shell_1" =
        (Except.error ("Shell " ++ "shell_1" ++ " has already completed. Cannot kill a finished process."), wDoneState)
      ∧ ((executeKillShell true "" wDoneState "shell_1").2).backgroundShells.lookup "shell_1" = some wDoneShell) :=
  ⟨⟨by decide, by rfl, by rfl⟩,
   terminate_already_completed true "" wDoneState "shell_1" wDoneShell
     (by decide) (by rfl) (by rfl)⟩

/-- C10: when the kill signal fails on a still-running process, terminate
returns the kill-failed error and does not remove the entry, which stays
observable in the registry. -/
theorem terminate_kill_failure
    (killErr : String) (s : State) (shellID : String) (shell : BackgroundShell)
    (hid : shellID ≠ "")
    (hl : s.backgroundShells.lookup shellID = some shell)
    (hrun : shell.done = false)
    (hproc : shell.procPresent = true) :
    executeKillShell false killErr s shellID =
      (Except.error ("Failed to kill shell " ++ shellID ++ ": " ++ killErr), s)
    ∧ ((executeKillShell false killErr s shellID).2).backgroundShells.lookup shellID = some shell := by
  have heq : executeKillShell false killErr s shellID =
      (Except.error ("Failed to kill shell " ++ shellID ++ ": " ++ killErr), s) := by
    simp [executeKillShell, hid, hl, hrun, hproc]
  exact ⟨heq, by rw [heq]; exact hl⟩

/-- Witness for C10 on the running concrete shell `wShell` with a failing
kill signal. -/
theorem terminate_kill_failure_witness :
    (("shell_1" : String) ≠ ""
      ∧ wState.backgroundShells.lookup "shell_1" = some wShell
      ∧ wShell.done = false ∧ wShell.procPresent = true)
    ∧ (executeKillShell false "operation not permitted" wState "shell_1" =
        (Except.error ("Failed to kill shell " ++ "shell_1" ++ ": " ++ "operation not permitted"), wState)
      ∧ ((executeKillShell false "operation not permitted" wState "shell_1").2).backgroundShells.lookup "shell_1" = some wShell) :=
  ⟨⟨by decide, by rfl, by rfl, by rfl⟩,
   terminate_kill_failure "operation not permitted" wState "shell_1" wShell
     (by decide) (by rfl) (by rfl) (by rfl)⟩

/-- Two strings differ when they differ at some byte index. -/
theorem String_ne_of_data_getElem (s t : String) (i : Nat)
    (h : s.data[i]? ≠ t.data[i]?) : s ≠ t :=
  fun he => h (by rw [he])

/-- The timed-out message is never equal to a nonzero-exit message. -/
theorem timedOut_ne_exitMessage (code : Int) (out : List Char) (command : String) :
    timedOutMsg ≠ exitCodeMessage code out command := by
  apply String_ne_of_data_getElem _ _ 8
  have h2 : (exitCodeMessage code out command).data[8]? = some 'e' := by
    simp only [exitCodeMessage, String.data_append, List.append_assoc]
    rw [List.getElem?_append_left (by decide)]
    decide
  rw [h2]
  decide

/-- The timed-out message is never equal to a start-failure message. -/
theorem timedOut_ne_startFailureMessage (msg command : String) :
    timedOutMsg ≠ startFailureMessage msg command := by
  apply String_ne_of_data_getElem _ _ 0
  have h2 : (startFailureMessage msg command).data[0]? = some 'F' := by
    simp only [startFailureMessage, String.data_append, List.append_assoc]
    rw [List.getElem?_append_left (by decide)]
    decide
  rw [h2]
  decide

/-- A nonzero-exit message is never equal to a start-failure message. -/
theorem exitMessage_ne_startFailureMessage (code : Int) (out : List Char)
    (command1 msg command2 : String) :
    exitCodeMessage code out command1 ≠ startFailureMessage msg command2 := by
  apply String_ne_of_data_getElem _ _ 0
  have h1 : (exitCodeMessage code out command1).data[0]? = some 'C' := by
    simp only [exitCodeMessage, String.data_append, List.append_assoc]
    rw [List.getElem?_append_left (by decide)]
    decide
  have h2 : (startFailureMessage msg command2).data[0]? = some 'F' := by
    simp only [startFailureMessage, String.data_append, List.append_assoc]
    rw [List.getElem?_append_left (by decide)]
    decide
  rw [h1, h2]
  decide

/-- C8: foreground execution distinguishes exactly three failure outcomes:
any error whose text contains the context-deadline marker, and an ExitError
with code -1 whose text contains "signal: killed", are both normalized to
the one timed-out message; any other ExitError is reported with its exit
code and the captured combined output; any other (non-exit) error is
reported as a start-failure message; and the three messages are pairwise
distinct at all inputs. -/
theorem executeForeground_three_outcomes :
    (∀ (res : ExecResult) (command : String) (e : ExecError),
        res.err = some e → goContains e.message "context deadline exceeded" = true →
        executeForeground res command = Except.error timedOutMsg)
    ∧ (∀ (out : List Char) (command msg : String),
        goContains msg "signal: killed" = true →
        executeForeground { output := out, err := some (ExecError.exitError (-1) msg) } command =
          Except.error timedOutMsg)
    ∧ (∀ (out : List Char) (command msg : String) (code : Int),
        goContains msg "context deadline exceeded" = false →
        ¬(code = -1 ∧ goContains msg "signal: killed" = true) →
        executeForeground { output := out, err := some (ExecError.exitError code msg) } command =
          Except.error (exitCodeMessage code out command))
    ∧ (∀ (out : List Char) (command msg : String),
        goContains msg "context deadline exceeded" = false →
        executeForeground { output := out, err := some (ExecError.otherError msg) } command =
          Except.error (startFailureMessage msg command))
    ∧ (∀ (code : Int) (out : List Char) (command1 msg command2 : String),
        timedOutMsg ≠ exitCodeMessage code out command1
        ∧ timedOutMsg ≠ startFailureMessage msg command2
        ∧ exitCodeMessage code out command1 ≠ startFailureMessage msg command2) := by
  refine ⟨?_, ?_, ?_, ?_, ?_⟩
  · intro res command e he hc
    simp [executeForeground, he, hc]
  · intro out command msg hk
    by_cases hc : goContains msg "context deadline exceeded" = true
    · simp [executeForeground, ExecError.message, hc]
    · have hc2 : goContains msg "context deadline exceeded" = false :=
        Bool.eq_false_iff.mpr hc
      simp [executeForeground, ExecError.message, hc2, hk]
  · intro out command msg code hc hnk
    simp [executeForeground, ExecError.message, hc, hnk]
  · intro out command msg hc
    simp [executeForeground, ExecError.message, hc]
  · intro code out command1 msg command2
    exact ⟨timedOut_ne_exitMessage code out command1,
           timedOut_ne_startFailureMessage msg command2,
           exitMessage_ne_startFailureMessage code out command1 msg command2⟩

/-- Witness for C8: one concrete run of each outcome, plus the pairwise
distinctness of the three concrete messages. -/
theorem executeForeground_three_outcomes_witness :
    (goContains "context deadline exceeded" "context deadline exceeded" = true
      ∧ goContains "signal: killed" "signal: killed" = true
      ∧ goContains "exit status 2" "context deadline exceeded" = false
      ∧ ¬((2 : Int) = -1 ∧ goContains "exit status 2" "signal: killed" = true)
      ∧ goContains "fork/exec /bin/nosuch: no such file" "context deadline exceeded" = false)
    ∧ executeForeground { output := [], err := some (ExecError.otherError "context deadline exceeded") } "c1" =
        Except.error timedOutMsg
    ∧ executeForeground { output := [], err := some (ExecError.exitError (-1) "signal: killed") } "c2" =
        Except.error timedOutMsg
    ∧ executeForeground { output := ['o'], err := some (ExecError.exitError 2 "exit status 2") } "c3" =
        Except.error (exitCodeMessage 2 ['o'] "c3")
    ∧ executeForeground { output := [], err := some (ExecError.otherError "fork/exec /bin/nosuch: no such file") } "c4" =
        Except.error (startFailureMessage "fork/exec /bin/nosuch: no such file" "c4")
    ∧ (timedOutMsg ≠ exitCodeMessage 2 ['o'] "c3"
      ∧ timedOutMsg ≠ startFailureMessage "x" "c4"
      ∧ exitCodeMessage 2 ['o'] "c3" ≠ startFailureMessage "x" "c4") :=
  ⟨⟨by decide, by decide, by decide, by decide, by decide⟩,
   executeForeground_three_outcomes.1
     { output := [], err := some (ExecError.otherError "context deadline exceeded") } "c1"
     (ExecError.otherError "context deadline exceeded") rfl (by decide),
   executeForeground_three_outcomes.2.1 [] "c2" "signal: killed" (by decide),
   executeForeground_three_outcomes.2.2.1 ['o'] "c3" "exit status 2" 2 (by decide) (by decide),
   executeForeground_three_outcomes.2.2.2.1 [] "c4" "fork/exec /bin/nosuch: no such file" (by decide),
   executeForeground_three_outcomes.2.2.2.2 2 ['o'] "c3" "x" "c4"⟩

/-- C9: a poll never fails because of the size of the delivered output —
even when the size check on the pending slice reports an error, the
unfiltered poll still succeeds and returns the whole slice (the check's
result is discarded) — whereas foreground execution fails with exactly the
size error when its combined output trips the cap. -/
theorem pollOutput_ignores_size_cap
    (compile : String → Except String (List Char → Bool)) (ts : String)
    (s : State) (shellID : String) (shell : BackgroundShell)
    (out : List Char) (command sizeMsg1 sizeMsg2 : String)
    (hid : shellID ≠ "")
    (hl : s.backgroundShells.lookup shellID = some shell)
    (hbig : checkOutputSize (shell.stdout.drop shell.lastStdoutReadAt) "bash" = some sizeMsg1)
    (hbig2 : checkOutputSize out "bash" = some sizeMsg2) :
    (∃ r : BashOutputResult, (executeBashOutput compile ts s shellID "").1 = Except.ok r
      ∧ r.stdout = shell.stdout.drop shell.lastStdoutReadAt)
    ∧ executeForeground { output := out, err := none } command = Except.error sizeMsg2 := by
  constructor
  · have hstep := executeBashOutput_nofilter compile ts s shellID shell hid hl
    exact ⟨_, by rw [hstep], rfl⟩
  · simp [executeForeground, hbig2]

/-- Witness for C9 on a shell with 100001 pending stdout bytes. -/
theorem pollOutput_ignores_size_cap_witness :
    (("shell_1" : String) ≠ ""
      ∧ bigState.backgroundShells.lookup "shell_1" = some bigShell
      ∧ checkOutputSize (bigShell.stdout.drop bigShell.lastStdoutReadAt) "bash" = some bigSizeMsg
      ∧ checkOutputSize (List.replicate 100001 'a') "bash" = some bigSizeMsg)
    ∧ ((∃ r : BashOutputResult, (executeBashOutput wCompile "t" bigState "shell_1" "").1 = Except.ok r
        ∧ r.stdout = bigShell.stdout.drop bigShell.lastStdoutReadAt)
      ∧ executeForeground { output := List.replicate 100001 'a', err := none } "yes" =
          Except.error bigSizeMsg) := by
  have hbig : checkOutputSize (List.replicate 100001 'a') "bash" = some bigSizeMsg := by
    unfold checkOutputSize
    rw [List.length_replicate]
    set_option maxRecDepth 40000 in decide
  refine ⟨⟨by decide, by rfl, ?_, hbig⟩, ?_⟩
  · show checkOutputSize ((List.replicate 100001 'a').drop 0) "bash" = some bigSizeMsg
    rw [List.drop_zero]
    exact hbig
  · refine pollOutput_ignores_size_cap wCompile "t" bigState "shell_1" bigShell
      (List.replicate 100001 'a') "yes" bigSizeMsg bigSizeMsg (by decide) (by rfl) ?_ hbig
    show checkOutputSize ((List.replicate 100001 'a').drop 0) "bash" = some bigSizeMsg
    rw [List.drop_zero]
    exact hbig

end ClaudeTools
